import Mathlib

/-!
Verification of the content-extraction core of the web-search agent
(`src/app.py`, class `EnchancedWebScraperTool` and the chat-history shell).

The embedding follows the Python source:

* A parsed HTML document (the BeautifulSoup object built at line 29) is a
  forest of nodes: text nodes and elements with a tag and children.  The
  string-level HTML parser itself is an external library; documents are
  modelled post-parse.
* `soup(["script","style","footer","nav","aside"])` followed by
  `.extract()` on each hit (lines 31-32) removes every element whose tag
  is in that list, together with its whole subtree: `cleanList`.
* `soup.get_text(separator="\n", strip=True)` (line 34) collects the text
  nodes in document order, strips each, drops the ones that strip to the
  empty string, and joins the survivors with a newline: `getTextL`.
* Lines 36-38 are the normalization.  Line 36 reads
  `lines = (lines.strip() for line in text.splitlines())`: the generator
  body calls `.strip()` on the free variable `lines`, which by the time the
  generator is forced (by the `"\n".join` at line 38) is bound to the
  generator object itself.  Hence forcing the pipeline raises
  AttributeError on the first element; only when `text.splitlines()` is
  empty (exactly when `text` is the empty string) does the pipeline run to
  completion and produce `""`.  `normalizeText` captures this observable
  behaviour.
* Lines 40-45: if the text exceeds 4000 characters it is truncated and the
  formatted payload is returned; otherwise control falls off the end of
  `run` and Python returns `None` (modelled by `Option`).
* Line 26-27: `requests.get` may raise (modelled as the error side of the
  `fetch` argument) and `raise_for_status()` raises exactly for status
  codes in [400, 600).
* Lines 133-158: one processed user question appends a user message and
  then one assistant message (the answer, or the formatted error text when
  `agent.run` raises) to `st.session_state.messages`.

Python strings are sequences of code points, modelled by `String` with its
`data : List Char`; slicing `text[:4000]` is `strTake`.
-/

/-- A node of the parsed HTML document: a text node, or an element with a
tag name and a list of children. -/
inductive Node where
  | text : String → Node
  | elem : String → List Node → Node

namespace EnchancedWebScraperTool

/-- The tag list passed to `soup([...])` at line 31 of `src/app.py`. -/
def killTags : List String := ["script", "style", "footer", "nav", "aside"]

/-- Lines 31-32: remove every element whose tag is in `killTags`, with its
entire subtree, keeping everything else in document order. -/
def cleanList : List Node → List Node
  | [] => []
  | Node.text s :: rest => Node.text s :: cleanList rest
  | Node.elem tag cs :: rest =>
      if killTags.contains tag then cleanList rest
      else Node.elem tag (cleanList cs) :: cleanList rest
termination_by l => sizeOf l
decreasing_by all_goals simp_wf <;> omega

/-- The text-node strings of a forest, in document order (the strings
`get_text` walks over). -/
def textsL : List Node → List String
  | [] => []
  | Node.text s :: rest => s :: textsL rest
  | Node.elem _ cs :: rest => textsL cs ++ textsL rest
termination_by l => sizeOf l
decreasing_by all_goals simp_wf <;> omega

/-- The text-node strings that survive the removal step: those with no
ancestor whose tag is in `killTags`.  Defined directly on the original
forest, for comparison with `textsL (cleanList l)`. -/
def keptTextsL : List Node → List String
  | [] => []
  | Node.text s :: rest => s :: keptTextsL rest
  | Node.elem tag cs :: rest =>
      (if killTags.contains tag then [] else keptTextsL cs) ++ keptTextsL rest
termination_by l => sizeOf l
decreasing_by all_goals simp_wf <;> omega

/-- The whitespace predicate of Python `str.strip`. -/
def pyIsSpace (c : Char) : Bool :=
  c == ' ' || c == '\t' || c == '\n' || c == '\r' || c == '\x0b' || c == '\x0c'

/-- Python `str.strip()`: drop leading and trailing whitespace. -/
def pyStrip (s : String) : String :=
  String.mk (((s.data.dropWhile pyIsSpace).reverse.dropWhile pyIsSpace).reverse)

/-- Python `sep.join(pieces)`. -/
def pyJoin (sep : String) : List String → String
  | [] => ""
  | [s] => s
  | s :: rest => s ++ sep ++ pyJoin sep rest

/-- Python `text[:n]` (slicing by code points). -/
def strTake (s : String) (n : Nat) : String := String.mk (s.data.take n)

/-- Python `str.splitlines()` restricted to newline separators; the empty
string has no lines. -/
def pySplitlines (s : String) : List String :=
  if s = "" then [] else s.splitOn "\n"

/-- Line 34: `soup.get_text(separator="\n", strip=True)` on an
already-cleaned forest: strip each text-node string, drop the ones that
become empty, join the rest with newlines. -/
def getTextL (l : List Node) : String :=
  pyJoin "\n" (((textsL l).map pyStrip).filter (fun s => s != ""))

/-- The message carried by the AttributeError raised at line 38 (Python
renders it with quote marks around generator and strip). -/
def attrMsg : String := "generator object has no attribute strip"

/-- Lines 36-38.  The generator at line 36 calls `.strip()` on the name
`lines`, which is rebound to the generator object itself; forcing the
pipeline by `"\n".join` at line 38 therefore raises AttributeError as soon
as there is one line, i.e. whenever `text` is non-empty.  When `text` is
empty, `splitlines` is empty, nothing is forced, and the join yields `""`. -/
def normalizeText (text : String) : Except String String :=
  if text = "" then Except.ok "" else Except.error attrMsg

/-- Line 40: `max_length = 4000`. -/
def max_length : Nat := 4000

/-- The truncation marker appended at line 43. -/
def marker : String := "...\n[Content truncated due to length]"

/-- Lines 42-43: the value of `text` after the conditional truncation. -/
def truncateStep (t : String) : String :=
  if t.length > max_length then strTake t max_length ++ marker else t

/-- The extraction pipeline from a parsed document to the final text value
(the state of `text` after line 43), or the message of the exception the
pipeline raises. -/
def finalText (doc : List Node) : Except String String :=
  match normalizeText (getTextL (cleanList doc)) with
  | Except.error e => Except.error e
  | Except.ok t => Except.ok (truncateStep t)

/-- An HTTP response as `run` sees it: a status code and the parsed body. -/
structure Response where
  status : Nat
  doc : List Node

/-- The error payload built at line 48: `f"Error scraping {url}:{str(e)}"`. -/
def errString (url msg : String) : String := "Error scraping " ++ url ++ ":" ++ msg

/-- The message of the `requests.HTTPError` raised by
`response.raise_for_status()` (line 27) for a status in [400, 600). -/
def httpErrorMessage (status : Nat) (url : String) : String :=
  toString status ++
    (if status < 500 then " Client Error for url: " else " Server Error for url: ") ++ url

/-- The method `EnchancedWebScraperTool.run` (lines 22-48).  The network layer is the
`fetch` argument: `Except.error m` is a raised `requests` exception with
message `m` (DNS failure, refused connection, timeout), `Except.ok r` a
delivered response.  `raise_for_status` raises exactly for 4xx/5xx.  On the
success path the extraction pipeline runs; its AttributeError is caught by
the blanket `except` like every other exception.  A final text of at most
4000 characters reaches no `return` statement, so `run` yields `none`. -/
def run (url : String) (fetch : Except String Response) : Option String :=
  match fetch with
  | Except.error m => some (errString url m)
  | Except.ok r =>
      if 400 ≤ r.status ∧ r.status < 600 then
        some (errString url (httpErrorMessage r.status url))
      else
        match normalizeText (getTextL (cleanList r.doc)) with
        | Except.error m => some (errString url m)
        | Except.ok text =>
            if text.length > max_length then
              some ("Content from " ++ url ++ ":\n\n" ++ (strTake text max_length ++ marker))
            else none

end EnchancedWebScraperTool

/-- A chat message of the conversation shell (lines 118-158):
`{"role": ..., "content": ...}`. -/
structure Message where
  role : String
  content : String
deriving DecidableEq

/-- The assistant content stored for one question: the agent answer on
success, or the error text built at line 156 when `agent.run` raises. -/
def assistantReply : Except String String → String
  | Except.ok response => response
  | Except.error e => "An error occured " ++ e

/-- Lines 133-158: processing one user question first appends the user
message (line 135), then runs the agent and appends exactly one assistant
message: the response (line 153) or the formatted error (line 158). -/
def processQuestion (messages : List Message) (question : String)
    (agentResult : Except String String) : List Message :=
  let withUser := messages ++ [⟨"user", question⟩]
  match agentResult with
  | Except.ok response => withUser ++ [⟨"assistant", response⟩]
  | Except.error e => withUser ++ [⟨"assistant", "An error occured " ++ e⟩]

/-- Running the extraction twice on the same parsed document. -/
def extractTwice (doc : List Node) : Except String String × Except String String :=
  (EnchancedWebScraperTool.finalText doc, EnchancedWebScraperTool.finalText doc)

namespace EnchancedWebScraperTool

/-- A string is non-empty exactly when its character list is. -/
theorem ne_empty_iff_data (s : String) : s ≠ "" ↔ s.data ≠ [] := by
  constructor
  · intro h hd
    exact h (String.ext hd)
  · intro h hd
    rw [hd] at h
    exact h rfl

/-- A `pyJoin` of a list whose head is non-empty is non-empty. -/
theorem pyJoin_cons_ne_empty (sep s : String) (rest : List String) (hs : s ≠ "") :
    pyJoin sep (s :: rest) ≠ "" := by
  cases rest with
  | nil => simpa [pyJoin] using hs
  | cons t ts =>
      intro h
      rw [pyJoin] at h
      · have hd := congrArg String.data h
        simp only [String.data_append, List.append_assoc] at hd
        exact (ne_empty_iff_data s).mp hs (List.append_eq_nil.mp hd).1
      · exact List.cons_ne_nil t ts

/-- The removal step commutes with text collection: the text nodes of the
cleaned forest are exactly the text nodes outside killed subtrees. -/
theorem texts_clean (l : List Node) : textsL (cleanList l) = keptTextsL l := by
  induction l using cleanList.induct <;>
    simp_all [cleanList, textsL, keptTextsL]

/-- If the head text node strips to something non-empty, `get_text` of the
cleaned forest is non-empty. -/
theorem getTextL_text_cons_ne_empty (s : String) (rest : List Node)
    (hs : pyStrip s ≠ "") :
    getTextL (cleanList (Node.text s :: rest)) ≠ "" := by
  rw [cleanList, getTextL, textsL, List.map_cons, List.filter_cons_of_pos (by simpa using hs)]
  exact pyJoin_cons_ne_empty _ _ _ hs

/-- On the success path with a non-empty extracted text, `run` returns the
error payload carrying the AttributeError message. -/
theorem run_ok_attr (url : String) (r : Response)
    (hs : ¬ (400 ≤ r.status ∧ r.status < 600))
    (ht : getTextL (cleanList r.doc) ≠ "") :
    run url (Except.ok r) = some (errString url attrMsg) := by
  rw [run, if_neg hs]
  unfold normalizeText
  rw [if_neg ht]

/-- Length accounting for the truncation step of lines 42-43. -/
theorem truncateStep_length_bound (t : String) :
    (marker.data <:+ (truncateStep t).data → (truncateStep t).length - marker.length ≤ max_length) ∧
    (¬ marker.data <:+ (truncateStep t).data → (truncateStep t).length ≤ max_length) := by
  unfold truncateStep
  by_cases h : t.length > max_length
  · rw [if_pos h]
    have hlen : (strTake t max_length ++ marker).length = max_length + marker.length := by
      rw [String.length_append]
      congr 1
      rw [strTake, String.length_mk, List.length_take]
      have : t.length = t.data.length := rfl
      omega
    constructor
    · intro _
      omega
    · intro hsuf
      exfalso
      apply hsuf
      rw [String.data_append]
      exact List.suffix_append _ _
  · rw [if_neg h]
    constructor
    · intro _
      omega
    · intro _
      omega

end EnchancedWebScraperTool

namespace EnchancedWebScraperTool

/-- An infix that avoids the separator element lies entirely on one side of
it. -/
theorem infix_split_of_not_mem {α : Type} {pat a b : List α} {c : α}
    (hc : c ∉ pat) (h : pat <:+: a ++ c :: b) : pat <:+: a ∨ pat <:+: b := by
  obtain ⟨s, t, hst⟩ := h
  by_cases h1 : s.length + pat.length ≤ a.length
  · left
    have h3 := congrArg (List.take (s.length + pat.length)) hst
    rw [List.take_left' (by simp)] at h3
    rw [List.take_append_of_le_length h1] at h3
    have h4 : pat <:+ s ++ pat := List.suffix_append s pat
    rw [h3] at h4
    exact h4.isInfix.trans (List.take_prefix _ _).isInfix
  · by_cases h2 : s.length ≤ a.length
    · exfalso
      have e1 : (a ++ c :: b)[a.length]? = some c := by
        rw [List.getElem?_append_right (Nat.le_refl _)]
        simp
      rw [← hst] at e1
      rw [List.getElem?_append_left (by simp; omega)] at e1
      rw [List.getElem?_append_right h2] at e1
      exact hc (List.getElem?_mem e1)
    · right
      have e1 : List.drop (a.length + 1) (a ++ c :: b) = b := by
        rw [List.append_cons, List.drop_left' (by simp)]
      have e2 : List.drop (a.length + 1) ((s ++ pat) ++ t)
          = List.drop (a.length + 1) s ++ pat ++ t := by
        rw [List.drop_append_of_le_length (by simp; omega)]
        rw [List.drop_append_of_le_length (by omega)]
      exact ⟨List.drop (a.length + 1) s, t, by rw [← e2, hst, e1]⟩

/-- An occurrence of a newline-free pattern in a newline-join lies inside
one of the joined pieces. -/
theorem infix_pyJoin_newline (pat : List Char) (hne : pat ≠ []) (hnl : '\n' ∉ pat) :
    ∀ pieces : List String, pat <:+: (pyJoin "\n" pieces).data → ∃ s ∈ pieces, pat <:+: s.data
  | [] => by
      intro h
      rw [pyJoin] at h
      simp at h
      exact absurd h hne
  | [s] => by
      intro h
      rw [pyJoin] at h
      exact ⟨s, by simp, h⟩
  | s :: t :: ts => by
      intro h
      rw [pyJoin] at h
      · have hd : (s ++ "\n" ++ pyJoin "\n" (t :: ts)).data
            = s.data ++ '\n' :: (pyJoin "\n" (t :: ts)).data := by
          simp only [String.data_append, List.append_assoc]
          rfl
        rw [hd] at h
        rcases infix_split_of_not_mem hnl h with h1 | h2
        · exact ⟨s, by simp, h1⟩
        · obtain ⟨u, hu, hp⟩ := infix_pyJoin_newline pat hne hnl (t :: ts) h2
          exact ⟨u, List.mem_cons_of_mem s hu, hp⟩
      · exact List.cons_ne_nil t ts

end EnchancedWebScraperTool

namespace EnchancedWebScraperTool

/-- C1.  The claim asks that a successful GET whose normalized text is
under 4000 characters yield a non-empty success payload containing that
text.  The code reaches no `return` statement on that path (`src/app.py`
lines 40-45 return only inside the truncation branch): for a 200 response
whose page has no text the normalized text is the empty string, under 4000
characters, and `run` yields `None`. -/
theorem run_short_text_returns_none :
    run "https://example.com" (Except.ok ⟨200, []⟩) = none := by
  have h : getTextL (cleanList ([] : List Node)) = "" := by
    simp [getTextL, cleanList, textsL, pyJoin]
  rw [run]
  simp only [h]
  decide

/-- C2, counterexample.  A response with the non-2xx status 304 does not
trigger `raise_for_status` (which raises only for 4xx/5xx), so it is not
converted to an error string: with an empty body, `run` returns `None`. -/
theorem run_status_304_not_converted :
    run "https://example.com" (Except.ok ⟨304, []⟩) = none := by
  have h : getTextL (cleanList ([] : List Node)) = "" := by
    simp [getTextL, cleanList, textsL, pyJoin]
  rw [run]
  simp only [h]
  decide

/-- C2, amended.  `run` never raises (it is a total function into
`Option String`), every raised network exception is converted to the
string `"Error scraping {url}:{message}"`, and so is every 4xx/5xx
response status via `raise_for_status`. -/
theorem run_failure_modes_error_string (url m : String) (r : Response)
    (h4 : 400 ≤ r.status) (h6 : r.status < 600) :
    run url (Except.error m) = some (errString url m) ∧
    run url (Except.ok r) = some (errString url (httpErrorMessage r.status url)) := by
  constructor
  · rfl
  · rw [run, if_pos ⟨h4, h6⟩]

/-- Witness for C2, amended, at a timeout exception and an HTTP 404. -/
theorem run_failure_modes_error_string_witness :
    run "https://example.com" (Except.error "connection timed out")
      = some (errString "https://example.com" "connection timed out") ∧
    run "https://example.com" (Except.ok ⟨404, []⟩)
      = some (errString "https://example.com" (httpErrorMessage 404 "https://example.com")) :=
  run_failure_modes_error_string "https://example.com" "connection timed out" ⟨404, []⟩
    (by decide) (by decide)

/-- C3.  For a 2xx response whose parsed document yields non-empty text,
the normalization of lines 36-38 raises AttributeError (the generator
expression evaluates `lines.strip()` where `lines` is the generator object
itself), the blanket `except` catches it, and `run` returns the error
payload; the success payload is never produced for such a page. -/
theorem run_nonempty_text_attribute_error (url : String) (r : Response)
    (h2 : 200 ≤ r.status) (h3 : r.status < 300)
    (ht : getTextL (cleanList r.doc) ≠ "") :
    run url (Except.ok r) = some (errString url attrMsg) :=
  run_ok_attr url r (by omega) ht

/-- Witness for C3 at a 200 response whose body is a single text node. -/
theorem run_nonempty_text_attribute_error_witness :
    run "https://example.com" (Except.ok ⟨200, [Node.text "hi"]⟩)
      = some (errString "https://example.com" attrMsg) :=
  run_nonempty_text_attribute_error "https://example.com" ⟨200, [Node.text "hi"]⟩
    (by decide) (by decide) (getTextL_text_cons_ne_empty "hi" [] (by decide))

/-- A page of 2500 text nodes of two characters each: its intended
normalized text would be 7499 characters, well over the 4000 cap. -/
def longDoc : List Node := Node.text "ab" :: List.replicate 2499 (Node.text "ab")

/-- C4.  The claim describes the truncation branch of lines 42-45, but that
branch is unreachable: on any page with non-empty text the normalization at
line 38 raises AttributeError first, so a page whose text exceeds 4000
characters produces the error payload, not the truncated success payload. -/
theorem run_long_text_error_not_truncated :
    run "https://example.com" (Except.ok ⟨200, longDoc⟩)
      = some (errString "https://example.com" attrMsg) :=
  run_ok_attr "https://example.com" ⟨200, longDoc⟩ (by decide)
    (getTextL_text_cons_ne_empty "ab" (List.replicate 2499 (Node.text "ab")) (by decide))

end EnchancedWebScraperTool

namespace EnchancedWebScraperTool

/-- C5.  The extraction discards script, style, footer, nav and aside
subtrees before extracting text: if the word "secret" occurs in no text
node outside those subtrees, then the extracted text does not contain
"secret" anywhere. -/
theorem extraction_discards_killed_subtrees (doc : List Node)
    (h : ∀ s ∈ keptTextsL doc, ¬ ("secret".data <:+: (pyStrip s).data)) :
    ¬ ("secret".data <:+: (getTextL (cleanList doc)).data) := by
  intro hin
  rw [getTextL] at hin
  obtain ⟨p, hp, hpat⟩ := infix_pyJoin_newline _ (by decide) (by decide) _ hin
  have hp' := (List.mem_filter.mp hp).1
  obtain ⟨s, hs, rfl⟩ := List.mem_map.mp hp'
  rw [texts_clean] at hs
  exact h s hs hpat

/-- A document with a script block whose text is "secret" next to ordinary
content. -/
def docC5 : List Node :=
  [Node.elem "body" [Node.elem "script" [Node.text "secret"], Node.text "hello"]]

/-- Witness for C5: on `docC5` the extracted text does not contain
"secret". -/
theorem extraction_discards_killed_subtrees_witness :
    ¬ ("secret".data <:+: (getTextL (cleanList docC5)).data) :=
  extraction_discards_killed_subtrees docC5 (by
    simp only [docC5, keptTextsL, killTags]
    decide)

/-- C6.  Whenever the extraction pipeline completes with a text value, no
line of that value is empty or has leading or trailing whitespace.  (On
the code as written the pipeline only completes with the empty text, which
has no lines.) -/
theorem extracted_lines_nonempty_stripped (doc : List Node) (s : String)
    (h : finalText doc = Except.ok s) :
    ∀ line ∈ pySplitlines s, line ≠ "" ∧ pyStrip line = line := by
  have hs : s = "" := by
    rw [finalText] at h
    unfold normalizeText at h
    by_cases he : getTextL (cleanList doc) = ""
    · rw [if_pos he] at h
      simp only [Except.ok.injEq] at h
      rw [← h]
      decide
    · rw [if_neg he] at h
      simp at h
  subst hs
  intro line hline
  simp [pySplitlines] at hline

/-- Witness for C6 at the empty document, whose extraction succeeds. -/
theorem extracted_lines_nonempty_stripped_witness :
    List.Forall (fun line => line ≠ "" ∧ pyStrip line = line) (pySplitlines "") :=
  List.forall_iff_forall_mem.mpr (extracted_lines_nonempty_stripped [] "" (by
    have h : getTextL (cleanList ([] : List Node)) = "" := by
      simp [getTextL, cleanList, textsL, pyJoin]
    rw [finalText, h]
    rfl))

/-- C7.  Whenever the extraction pipeline completes with a text value, its
length net of the truncation marker (when the marker is present as a
suffix) is at most 4000. -/
theorem extracted_text_length_bound (doc : List Node) (s : String)
    (h : finalText doc = Except.ok s) :
    (marker.data <:+ s.data → s.length - marker.length ≤ max_length) ∧
    (¬ marker.data <:+ s.data → s.length ≤ max_length) := by
  have hs : ∃ t, s = truncateStep t := by
    rw [finalText] at h
    cases hn : normalizeText (getTextL (cleanList doc)) with
    | error e =>
        rw [hn] at h
        simp at h
    | ok t =>
        rw [hn] at h
        simp only [Except.ok.injEq] at h
        exact ⟨t, h.symm⟩
  obtain ⟨t, rfl⟩ := hs
  exact truncateStep_length_bound t

/-- Witness for C7 at the empty document, whose extraction succeeds. -/
theorem extracted_text_length_bound_witness :
    (marker.data <:+ ("" : String).data → ("" : String).length - marker.length ≤ max_length) ∧
    (¬ marker.data <:+ ("" : String).data → ("" : String).length ≤ max_length) :=
  extracted_text_length_bound [] "" (by
    have h : getTextL (cleanList ([] : List Node)) = "" := by
      simp [getTextL, cleanList, textsL, pyJoin]
    rw [finalText, h]
    rfl)

/-- The document of the C8 scenario:
`<html><body><p>Hello   world</p></body></html>`. -/
def helloDoc : List Node :=
  [Node.elem "html" [Node.elem "body" [Node.elem "p" [Node.text "Hello   world"]]]]

/-- C8.  The scenario expects `extract` to yield "Hello\nworld"
(space-split phrases on separate lines); on the code as written the
normalization instead raises AttributeError on this input, because the
generator at line 36 calls `.strip()` on itself, and the extraction
produces no text at all. -/
theorem hello_world_extraction_raises :
    finalText helloDoc = Except.error attrMsg := by
  have h : getTextL (cleanList helloDoc) = "Hello   world" := by
    simp +decide [helloDoc, getTextL, cleanList, textsL, killTags, pyJoin]
  rw [finalText, h]
  unfold normalizeText
  rw [if_neg (by decide)]

/-- C9.  The extraction is a pure function of the parsed markup: running it
twice yields the same result, there being no hidden state in the model of
lines 29-45. -/
theorem extraction_deterministic (doc : List Node) :
    (extractTwice doc).1 = (extractTwice doc).2 := rfl

end EnchancedWebScraperTool

/-- C10.  Processing one user question appends exactly one user message
followed by exactly one assistant message (the agent answer, or the
formatted error text when `agent.run` raises) and leaves every previously
stored message in place. -/
theorem message_history_append_only (messages : List Message) (question : String)
    (agentResult : Except String String) :
    processQuestion messages question agentResult
      = messages ++ [⟨"user", question⟩, ⟨"assistant", assistantReply agentResult⟩] ∧
    messages <+: processQuestion messages question agentResult := by
  constructor
  · cases agentResult <;> simp [processQuestion, assistantReply]
  · cases agentResult <;> simp [processQuestion]
